import Mathlib

/-!
Shallow embedding of the SCP server example (Cloudflare Worker, TypeScript):
the OAuth orchestration (`src/oauth/authorize.ts`, `src/oauth/token.ts`), the
token codec (`src/oauth/jwt.ts`) and the JSON-RPC dispatcher
(`src/rpc/handler.ts`), together with the two external stores they drive
(Cloudflare KV, modelled as association lists, and the D1 tables
`auth_codes` / `refresh_tokens` from `migrations/001_oauth_only.sql`,
modelled as row lists).

Platform primitives that are not code of this repository (Web Crypto
HMAC-SHA-256 and SHA-256, `JSON.parse`/`JSON.stringify`, base64url via
`btoa`/`atob`, `crypto.getRandomValues`, `Date.now`) are abstracted: pure
functions become parameters (`JwtPrims`, the `s256` transform), randomness
and the clock become explicit arguments, exactly as §9 of the spec asks.
Everything else is translated statement by statement from the source.
-/

namespace SCP

/-! ### String helpers (JS semantics)

The source uses `String.prototype.split('.')`, `String.prototype.includes`,
`String.prototype.replace` (first occurrence only) and `Array.join(' ')`.
They are modelled structurally over the character list so that concrete
instances reduce in the kernel. -/

/-- Model of JS `s.split(sep)` for a one-character separator, over the
character list. -/
def splitOnCharAux (sep : Char) : List Char → List Char → List (List Char)
  | [], acc => [acc.reverse]
  | c :: cs, acc =>
    if c = sep then acc.reverse :: splitOnCharAux sep cs []
    else splitOnCharAux sep cs (c :: acc)

/-- Model of JS `s.split('.')` (the only split the source performs). -/
def jsSplit (s : String) (sep : Char) : List String :=
  (splitOnCharAux sep s.data []).map (fun l => String.mk l)

/-- Model of JS `s.includes(pat)` over character lists. -/
def listIncludes : List Char → List Char → Bool
  | [], pat => pat == []
  | c :: cs, pat => ((c :: cs).take pat.length == pat) || listIncludes cs pat

/-- Model of JS `s.includes(pat)`. -/
def jsIncludes (s pat : String) : Bool :=
  listIncludes s.data pat.data

/-- Model of JS `s.replace(pat, repl)`, which replaces only the first
occurrence. -/
def replaceFirstAux (pat repl : List Char) : List Char → List Char → List Char
  | [], acc => acc.reverse
  | c :: cs, acc =>
    if (c :: cs).take pat.length = pat then
      acc.reverse ++ repl ++ (c :: cs).drop pat.length
    else replaceFirstAux pat repl cs (c :: acc)

/-- Model of JS `s.replace(pat, repl)` on strings. -/
def jsReplaceFirst (s pat repl : String) : String :=
  String.mk (replaceFirstAux pat.data repl.data s.data [])

/-- Model of JS `array.join(' ')`, used for the `scope` response field. -/
def joinSpace : List String → String
  | [] => ""
  | [s] => s
  | s :: rest => s ++ " " ++ joinSpace rest

/-- JS truthiness of an optional string (`undefined` and `""` are falsy). -/
def strTruthy : Option String → Bool
  | none => false
  | some s => s ≠ ""

/-- Model of JS `x || d` for an optional string (`undefined`/`""` fall back to
the default). -/
def strOr (o : Option String) (d : String) : String :=
  match o with
  | none => d
  | some s => if s = "" then d else s

/-! ### Key-value stores

`env.AUTH_REQUESTS` and `env.MAGIC_LINK_TOKENS` are Cloudflare KV
namespaces: `get` returns the value last `put` under the key (or nothing),
`put` overwrites, `delete` removes. Modelled as association lists. -/

/-- Association-list model of a KV namespace. -/
abbrev KV (α : Type) := List (String × α)

/-- KV `get`: the value stored under `k`, if any. -/
def kvGet {α : Type} (store : KV α) (k : String) : Option α :=
  (store.find? (fun e => e.1 == k)).map (fun e => e.2)

/-- KV `put`: overwrite the value under `k`. -/
def kvPut {α : Type} (store : KV α) (k : String) (v : α) : KV α :=
  (k, v) :: store.filter (fun e => e.1 ≠ k)

/-- KV `delete`: remove the value under `k`. -/
def kvDelete {α : Type} (store : KV α) (k : String) : KV α :=
  store.filter (fun e => e.1 ≠ k)

/-! ### Data model (src/types.ts and migrations/001_oauth_only.sql) -/

/-- `AuthRequestStored` from `src/types.ts`. `customer_id` is `null` until
confirmation, `code` is optional; `status` is one of
`pending`/`authorized`/`denied`. Timestamps are `Date.now()` milliseconds. -/
structure AuthRequestStored where
  id : String
  email : String
  customer_id : Option String
  client_id : String
  client_name : String
  scopes : List String
  code_challenge : String
  status : String
  code : Option String
  created_at : Int
  expires_at : Int
deriving Repr, DecidableEq

/-- Row of the D1 table `auth_codes`. The `scopes` column stores a JSON
array of strings; it is modelled as the parsed list (serialisation by
`JSON.stringify`/`JSON.parse` is a platform round-trip). -/
structure AuthCodeRow where
  code : String
  customer_email : String
  cordial_contact_id : String
  client_id : String
  scopes : List String
  code_challenge : String
  expires_at : Int
  used : Bool
  created_at : Int
deriving Repr, DecidableEq

/-- Row of the D1 table `refresh_tokens` (`last_used` is nullable and not
set by the INSERT). -/
structure RefreshTokenRow where
  token : String
  customer_email : String
  cordial_contact_id : String
  client_id : String
  scopes : List String
  expires_at : Int
  created_at : Int
  last_used : Option Int
deriving Repr, DecidableEq

/-- The persistent state the orchestrator drives: the two KV namespaces and
the two D1 tables. -/
structure ServerState where
  authRequests : KV AuthRequestStored
  magicLinkTokens : KV String
  authCodes : List AuthCodeRow
  refreshTokens : List RefreshTokenRow
deriving Repr, DecidableEq

/-! ### Token codec (src/oauth/jwt.ts) -/

/-- `TokenPayload` from `src/types.ts`. `verifyJWT` handles arbitrary JSON
payloads in which `exp` may be absent, so `exp` is optional here;
`generateAccessToken` always sets it. -/
structure TokenPayload where
  sub : String
  email : String
  scopes : List String
  type : String
  iat : Int
  exp : Option Int
deriving Repr, DecidableEq

/-- Platform primitives used by the codec, abstracted (Web Crypto and JSON
are not code of this repository):
`mac data secret` models `sign(data, secret)` (HMAC-SHA-256 then
base64url); `encodedHeader` models `base64urlEncode(JSON.stringify(header))`
for the fixed header; `encodePayload`/`decodePayload` model
base64url + JSON on the payload; `decodeHeaderAlg` reads the `alg` field of
an encoded header (the verifier never calls it — it exists only so that
claims about what a header declares can be stated). -/
structure JwtPrims where
  mac : String → String → String
  encodedHeader : String
  encodePayload : TokenPayload → String
  decodePayload : String → Option TokenPayload
  decodeHeaderAlg : String → Option String

/-- Errors thrown by `verifyJWT` (`malformedPayload` stands for the
exception `JSON.parse` raises on an undecodable payload). -/
inductive JwtError
  | invalidFormat
  | invalidSignature
  | malformedPayload
  | expired
deriving Repr, DecidableEq

/-- Messages of the errors `verifyJWT` throws (`JSON.parse` raises a
`SyntaxError` whose message mentions JSON, not `Invalid` or `expired`). -/
def JwtError.message : JwtError → String
  | .invalidFormat => "Invalid JWT format"
  | .invalidSignature => "Invalid JWT signature"
  | .malformedPayload => "Unexpected token in JSON"
  | .expired => "JWT expired"

/-- Gate of the expiry check in `verifyJWT`:
`payload.exp && payload.exp < now` — JS truthiness makes `exp = 0` (and an
absent `exp`) skip the check. `nowSec` is `Math.floor(Date.now() / 1000)`. -/
def expGate (exp : Option Int) (nowSec : Int) : Bool :=
  match exp with
  | some e => e ≠ 0 && e < nowSec
  | none => false

/-- `createJWT(payload, secret)` from `src/oauth/jwt.ts`. -/
def createJWT (P : JwtPrims) (payload : TokenPayload) (secret : String) : String :=
  let encodedHeader := P.encodedHeader
  let encodedPayload := P.encodePayload payload
  let signature := P.mac (encodedHeader ++ "." ++ encodedPayload) secret
  encodedHeader ++ "." ++ encodedPayload ++ "." ++ signature

/-- `verifyJWT(token, secret)` from `src/oauth/jwt.ts`: split on `.`,
require exactly 3 parts, recompute the HMAC over `header.payload` and
compare, decode the payload, and reject a truthy `exp` that has passed.
The header is never decoded. -/
def verifyJWT (P : JwtPrims) (token secret : String) (nowSec : Int) :
    Except JwtError TokenPayload :=
  match jsSplit token '.' with
  | [encodedHeader, encodedPayload, signature] =>
    let expectedSignature := P.mac (encodedHeader ++ "." ++ encodedPayload) secret
    if signature ≠ expectedSignature then .error .invalidSignature
    else
      match P.decodePayload encodedPayload with
      | none => .error .malformedPayload
      | some payload =>
        if expGate payload.exp nowSec then .error .expired
        else .ok payload
  | _ => .error .invalidFormat

/-- `verifyAccessToken` from `src/oauth/jwt.ts` (a cast of `verifyJWT`). -/
def verifyAccessToken (P : JwtPrims) (token secret : String) (nowSec : Int) :
    Except JwtError TokenPayload :=
  verifyJWT P token secret nowSec

/-- Payload built by `generateAccessToken` (`iat = Math.floor(Date.now()/1000)`,
`exp = iat + 3600`). -/
def accessTokenPayload (contactId email : String) (scopes : List String)
    (nowSec : Int) : TokenPayload :=
  { sub := contactId
    email := email
    scopes := scopes
    type := "access_token"
    iat := nowSec
    exp := some (nowSec + 3600) }

/-- `generateAccessToken` from `src/oauth/jwt.ts`. -/
def generateAccessToken (P : JwtPrims) (contactId email : String)
    (scopes : List String) (secret : String) (nowSec : Int) : String :=
  createJWT P (accessTokenPayload contactId email scopes nowSec) secret

/-- `verifyPKCE(codeVerifier, codeChallenge)` from `src/oauth/jwt.ts`, with
the SHA-256-then-base64url transform `s256` abstracted. -/
def verifyPKCE (s256 : String → String) (codeVerifier codeChallenge : String) : Bool :=
  s256 codeVerifier == codeChallenge

/-! ### Authorization orchestrator (src/oauth/authorize.ts)

`generateId` draws from `crypto.getRandomValues` and `Date.now()` is the
ambient clock, so fresh identifiers and `now` are passed as arguments.
On a thrown error the KV writes already performed persist, so each
operation returns its outcome together with the resulting state. -/

/-- Result shape of `initAuthorization`. -/
structure InitResponse where
  auth_request_id : String
  email_sent : Bool
  expires_in : Int
  poll_interval : Int
deriving Repr, DecidableEq

/-- `initAuthorization(request, env)`: store a `pending` request under a
fresh id, store the magic-link token mapping, and report
`expires_in = 600`, `poll_interval = 2`. (The email send is an external
effect with no bearing on state.) -/
def initAuthorization (email clientId clientName : String) (scopes : List String)
    (codeChallenge : String) (authRequestId magicToken : String) (now : Int)
    (st : ServerState) : InitResponse × ServerState :=
  let expiresAt := now + 10 * 60 * 1000
  let authRequestData : AuthRequestStored :=
    { id := authRequestId
      email := email
      customer_id := none
      client_id := clientId
      client_name := clientName
      scopes := scopes
      code_challenge := codeChallenge
      status := "pending"
      code := none
      created_at := now
      expires_at := expiresAt }
  let st1 := { st with authRequests := kvPut st.authRequests authRequestId authRequestData }
  let st2 := { st1 with magicLinkTokens := kvPut st1.magicLinkTokens magicToken authRequestId }
  ({ auth_request_id := authRequestId
     email_sent := true
     expires_in := 600
     poll_interval := 2 }, st2)

/-- Error thrown by `pollAuthorization` on a `client_id` mismatch
(`throw new Error('Invalid client_id')`). -/
inductive PollError
  | invalidClientId
deriving Repr, DecidableEq

/-- Result shape of `pollAuthorization`. -/
structure PollResponse where
  status : String
  code : Option String
  expires_in : Option Int
deriving Repr, DecidableEq

/-- `pollAuthorization(authRequestId, clientId, env)`: absent record ⇒
`expired`; `client_id` mismatch throws; `expires_at < Date.now()` ⇒
`expired`; `authorized` with a truthy code echoes the code; `denied`
echoes `denied`; otherwise `pending` with the remaining seconds. -/
def pollAuthorization (authRequestId clientId : String) (now : Int)
    (st : ServerState) : Except PollError PollResponse :=
  match kvGet st.authRequests authRequestId with
  | none => .ok { status := "expired", code := none, expires_in := none }
  | some authRequest =>
    if authRequest.client_id ≠ clientId then .error .invalidClientId
    else if authRequest.expires_at < now then
      .ok { status := "expired", code := none, expires_in := none }
    else if authRequest.status = "authorized" ∧ strTruthy authRequest.code then
      .ok { status := "authorized", code := authRequest.code, expires_in := none }
    else if authRequest.status = "denied" then
      .ok { status := "denied", code := none, expires_in := none }
    else
      .ok { status := "pending", code := none,
            expires_in := some ((authRequest.expires_at - now) / 1000) }

/-- Errors thrown by `confirmAuthorization`: `invalidLink` is
`Invalid or expired magic link`, `requestExpired` is
`Authorization request expired`, `customerNotFound` is
`Customer not found in merchant system` (raised both when `verifyEmail`
throws and when it reports a missing customer — the two paths perform the
same state update and throw the same message). -/
inductive ConfirmError
  | invalidLink
  | requestExpired
  | customerNotFound
deriving Repr, DecidableEq

/-- `confirmAuthorization(magicToken, env)`: read (not delete) the magic
mapping, load the request, verify the email against the directory
(abstracted as `verifyEmail : email → Option customerId`), on failure
persist `status := denied` and throw, on success insert the fresh
authorization code row (5-minute expiry, `used` defaults to `0`), persist
the request as `authorized` with the code and customer id, and only then
delete the magic-link mapping. -/
def confirmAuthorization (magicToken : String) (verifyEmail : String → Option String)
    (newCode : String) (now : Int) (st : ServerState) :
    Except ConfirmError Unit × ServerState :=
  match kvGet st.magicLinkTokens magicToken with
  | none => (.error .invalidLink, st)
  | some authRequestId =>
    match kvGet st.authRequests authRequestId with
    | none => (.error .requestExpired, st)
    | some authRequest =>
      match verifyEmail authRequest.email with
      | none =>
        let denied := { authRequest with status := "denied" }
        (.error .customerNotFound,
         { st with authRequests := kvPut st.authRequests authRequestId denied })
      | some customerId =>
        let codeRow : AuthCodeRow :=
          { code := newCode
            customer_email := authRequest.email
            cordial_contact_id := customerId
            client_id := authRequest.client_id
            scopes := authRequest.scopes
            code_challenge := authRequest.code_challenge
            expires_at := now + 5 * 60 * 1000
            used := false
            created_at := now }
        let updated := { authRequest with
          status := "authorized"
          code := some newCode
          customer_id := some customerId }
        (.ok (),
         { st with
           authCodes := st.authCodes ++ [codeRow]
           authRequests := kvPut st.authRequests authRequestId updated
           magicLinkTokens := kvDelete st.magicLinkTokens magicToken })

/-! ### Token endpoint (src/oauth/token.ts) -/

/-- Errors thrown by `exchangeCodeForTokens` and `refreshAccessToken`;
the `/v1/token` endpoint in `src/index.ts` maps every one of them to the
OAuth error code `invalid_grant` (HTTP 400). -/
inductive TokenError
  | invalidOrUsedCode
  | codeExpired
  | invalidClientId
  | invalidVerifier
  | invalidRefreshToken
  | refreshTokenExpired
deriving Repr, DecidableEq

/-- Messages of the thrown token errors. -/
def TokenError.message : TokenError → String
  | .invalidOrUsedCode => "Invalid or used authorization code"
  | .codeExpired => "Authorization code expired"
  | .invalidClientId => "Invalid client_id"
  | .invalidVerifier => "Invalid code_verifier"
  | .invalidRefreshToken => "Invalid refresh token"
  | .refreshTokenExpired => "Refresh token expired"

/-- OAuth error code the `/v1/token` route of `src/index.ts` returns when
the grant handler throws (its catch block always answers `invalid_grant`). -/
def tokenEndpointErrorCode (_ : TokenError) : String :=
  "invalid_grant"

/-- Response shape of `exchangeCodeForTokens`. -/
structure ExchangeResponse where
  access_token : String
  refresh_token : String
  token_type : String
  expires_in : Int
  scope : String
  customer_id : String
  email : String
deriving Repr, DecidableEq

/-- `exchangeCodeForTokens(code, codeVerifier, clientId, env)`:
`SELECT * FROM auth_codes WHERE code = ? AND used = 0` (`.first()`),
absence throws; then the expiry check, the `client_id` check and the PKCE
check; then `UPDATE auth_codes SET used = 1 WHERE code = ?`; then mint the
access token, generate the refresh token (`newRefreshToken`, random in the
source) and `INSERT` the refresh-token row (30-day expiry, `last_used`
unset). `now` is `Date.now()` in milliseconds. -/
def exchangeCodeForTokens (P : JwtPrims) (s256 : String → String)
    (code codeVerifier clientId secret : String) (now : Int)
    (newRefreshToken : String) (st : ServerState) :
    Except TokenError ExchangeResponse × ServerState :=
  match st.authCodes.find? (fun r => r.code == code && r.used == false) with
  | none => (.error .invalidOrUsedCode, st)
  | some result =>
    if result.expires_at < now then (.error .codeExpired, st)
    else if result.client_id ≠ clientId then (.error .invalidClientId, st)
    else if ¬ verifyPKCE s256 codeVerifier result.code_challenge then
      (.error .invalidVerifier, st)
    else
      let authCodes1 := st.authCodes.map
        (fun r => if r.code == code then { r with used := true } else r)
      let scopes := result.scopes
      let accessToken := generateAccessToken P result.cordial_contact_id
        result.customer_email scopes secret (now / 1000)
      let newRow : RefreshTokenRow :=
        { token := newRefreshToken
          customer_email := result.customer_email
          cordial_contact_id := result.cordial_contact_id
          client_id := clientId
          scopes := result.scopes
          expires_at := now + 30 * 24 * 60 * 60 * 1000
          created_at := now
          last_used := none }
      (.ok { access_token := accessToken
             refresh_token := newRefreshToken
             token_type := "Bearer"
             expires_in := 3600
             scope := joinSpace scopes
             customer_id := result.cordial_contact_id
             email := result.customer_email },
       { st with
         authCodes := authCodes1
         refreshTokens := st.refreshTokens ++ [newRow] })

/-- Response shape of `refreshAccessToken`. -/
structure RefreshResponse where
  access_token : String
  refresh_token : String
  token_type : String
  expires_in : Int
  scope : String
deriving Repr, DecidableEq

/-- `refreshAccessToken(refreshToken, clientId, env)`:
`SELECT * FROM refresh_tokens WHERE token = ?` (`.first()`), absence
throws; then the expiry check and the `client_id` check; then mint a new
access token with the stored scopes and
`UPDATE refresh_tokens SET token = ?, last_used = ? WHERE token = ?`. -/
def refreshAccessToken (P : JwtPrims) (refreshToken clientId secret : String)
    (now : Int) (newRefreshToken : String) (st : ServerState) :
    Except TokenError RefreshResponse × ServerState :=
  match st.refreshTokens.find? (fun r => r.token == refreshToken) with
  | none => (.error .invalidRefreshToken, st)
  | some result =>
    if result.expires_at < now then (.error .refreshTokenExpired, st)
    else if result.client_id ≠ clientId then (.error .invalidClientId, st)
    else
      let scopes := result.scopes
      let newAccessToken := generateAccessToken P result.cordial_contact_id
        result.customer_email scopes secret (now / 1000)
      let refreshTokens1 := st.refreshTokens.map
        (fun r => if r.token == refreshToken then
            { r with token := newRefreshToken, last_used := some now }
          else r)
      (.ok { access_token := newAccessToken
             refresh_token := newRefreshToken
             token_type := "Bearer"
             expires_in := 3600
             scope := joinSpace scopes },
       { st with refreshTokens := refreshTokens1 })

/-- `revokeToken(token, env)`: `DELETE FROM refresh_tokens WHERE token = ?`;
idempotent, access tokens are not revocable. -/
def revokeToken (token : String) (st : ServerState) : ServerState :=
  { st with refreshTokens := st.refreshTokens.filter (fun r => r.token ≠ token) }

/-! ### RPC dispatcher (src/rpc/handler.ts)

The eight method handlers delegate to the external data collaborators
(`src/mock-data/*`), which are outside the core; a successful route is
therefore recorded as which handler ran, with which arguments. What the
claims need is precisely that a handler is or is not reached. -/

/-- Opaque stand-in for the JSON `params` object of a request. -/
abbrev Params := List (String × String)

/-- Which of the eight handlers `routeMethod` invoked, with its
arguments. -/
inductive HandlerCall
  | getOrders (customerId : String) (params : Params)
  | getLoyalty (customerId : String)
  | getOffers (customerId : String) (params : Params)
  | getPreferences (customerId : String)
  | createIntent (customerId : String) (params : Params)
  | getIntentsMethod (customerId : String) (params : Params)
  | updateIntent (customerId : String) (params : Params)
  | fulfillIntent (customerId : String) (params : Params)
deriving Repr, DecidableEq

/-- JSON-RPC error object thrown via `createError`. -/
structure RPCError where
  code : Int
  message : String
deriving Repr, DecidableEq

/-- `createError(code, message)` from `src/rpc/handler.ts`. -/
def createError (code : Int) (message : String) : RPCError :=
  { code := code, message := message }

/-- `checkScope(scopes, required)` from `src/rpc/handler.ts`: throw
-32001 `Forbidden: missing scope ...` when the required scope is not in
the token scope set. -/
def checkScope (scopes : List String) (required : String) : Except RPCError Unit :=
  if required ∈ scopes then .ok ()
  else .error (createError (-32001) ("Forbidden: missing scope \x27" ++ required ++ "\x27"))

/-- `routeMethod(method, params, customerId, scopes, env)` from
`src/rpc/handler.ts`: the fixed eight-way switch, each arm first running
`checkScope`, unknown methods throwing -32601 `Method not found`. -/
def routeMethod (method : String) (params : Params) (customerId : String)
    (scopes : List String) : Except RPCError HandlerCall :=
  match method with
  | "scp.get_orders" => do
    let _ ← checkScope scopes "orders"
    .ok (.getOrders customerId params)
  | "scp.get_loyalty" => do
    let _ ← checkScope scopes "loyalty"
    .ok (.getLoyalty customerId)
  | "scp.get_offers" => do
    let _ ← checkScope scopes "offers"
    .ok (.getOffers customerId params)
  | "scp.get_preferences" => do
    let _ ← checkScope scopes "preferences"
    .ok (.getPreferences customerId)
  | "scp.create_intent" => do
    let _ ← checkScope scopes "intent:create"
    .ok (.createIntent customerId params)
  | "scp.get_intents" => do
    let _ ← checkScope scopes "intent:read"
    .ok (.getIntentsMethod customerId params)
  | "scp.update_intent" => do
    let _ ← checkScope scopes "intent:write"
    .ok (.updateIntent customerId params)
  | "scp.fulfill_intent" => do
    let _ ← checkScope scopes "intent:write"
    .ok (.fulfillIntent customerId params)
  | _ => .error (createError (-32601) "Method not found")

/-- The single required scope of each dispatched method (the argument each
arm of `routeMethod` passes to `checkScope`). -/
def requiredScope : String → Option String
  | "scp.get_orders" => some "orders"
  | "scp.get_loyalty" => some "loyalty"
  | "scp.get_offers" => some "offers"
  | "scp.get_preferences" => some "preferences"
  | "scp.create_intent" => some "intent:create"
  | "scp.get_intents" => some "intent:read"
  | "scp.update_intent" => some "intent:write"
  | "scp.fulfill_intent" => some "intent:write"
  | _ => none

/-- Anything the dispatcher's try/catch can receive: a codec error from
`verifyAccessToken` or an `Error` carrying a `code` from `createError`. -/
inductive ThrownError
  | jwt (e : JwtError)
  | rpc (e : RPCError)
deriving Repr, DecidableEq

/-- `getErrorCode(error)` from `src/rpc/handler.ts`: a truthy `error.code`
wins (every `createError` code is nonzero); otherwise a message containing
`expired` or `Invalid` maps to -32000, anything else to -32603. -/
def getErrorCode (e : ThrownError) : Int :=
  match e with
  | .rpc err => err.code
  | .jwt j =>
    if jsIncludes (JwtError.message j) "expired" then -32000
    else if jsIncludes (JwtError.message j) "Invalid" then -32000
    else -32603

/-- JSON-RPC request id (`number | string`). -/
abbrev RequestId := Int ⊕ String

/-- `JSONRPCRequest` from `src/types.ts` (`params` may be absent; the
handler substitutes the empty object, folded into `params` here). -/
structure JSONRPCRequest where
  id : RequestId
  method : String
  params : Params
deriving Repr, DecidableEq

/-- Body of a `JSONRPCResponse`: a wrapped `result` or a wrapped
`error` object. -/
inductive RPCOutcome
  | result (r : HandlerCall)
  | rpcError (code : Int) (message : String)
deriving Repr, DecidableEq

/-- `JSONRPCResponse` from `src/types.ts`. -/
structure JSONRPCResponse where
  jsonrpc : String
  id : RequestId
  outcome : RPCOutcome
deriving Repr, DecidableEq

/-- Envelope the dispatcher builds once the token verified with claims
`tokenPayload`: route with `sub` and `scopes` from the claims and wrap the
outcome, preserving the request id. -/
def routeAndWrap (request : JSONRPCRequest) (tokenPayload : TokenPayload) :
    JSONRPCResponse :=
  match routeMethod request.method request.params tokenPayload.sub tokenPayload.scopes with
  | .ok result =>
    { jsonrpc := "2.0", id := request.id, outcome := .result result }
  | .error e =>
    { jsonrpc := "2.0", id := request.id,
      outcome := .rpcError (getErrorCode (.rpc e)) e.message }

/-- `handleRPCRequest(request, accessToken, env)` from
`src/rpc/handler.ts`: verify the token, route, and catch every failure
into an error envelope that keeps the caller's request id. -/
def handleRPCRequest (P : JwtPrims) (request : JSONRPCRequest)
    (accessToken secret : String) (nowSec : Int) : JSONRPCResponse :=
  match verifyAccessToken P accessToken secret nowSec with
  | .error e =>
    { jsonrpc := "2.0", id := request.id,
      outcome := .rpcError (getErrorCode (.jwt e)) (JwtError.message e) }
  | .ok tokenPayload => routeAndWrap request tokenPayload

/-! ### Intent aggregation (transformIntentsToSCP in src/rpc/handler.ts)

The per-customer activity log comes from the external intent store
(`getIntents` in `src/mock-data/customer.ts`); the fold over it is the
code below. A JS `Map` keeps a key's original insertion position when
`set` overwrites it and appends unknown keys, which `mapSet` mirrors. -/

/-- Fields of `activity.data` that `transformIntentsToSCP` reads. JSON
fields may be absent, hence the options; `details` in a milestone is the
whole `data` object. -/
structure ActivityData where
  intent_id : Option String
  status : Option String
  source : Option String
  base_intent : Option String
  mechanism : Option String
  ai_assistant : Option String
  ai_session_id : Option String
  expires_at : Option String
  context : Option (List (String × String))
  visibility : Option String
  shared_with : Option (List String)
deriving Repr, DecidableEq

/-- One entry of a customer activity log. -/
structure Activity where
  action : String
  timestamp : String
  data : ActivityData
deriving Repr, DecidableEq

/-- Value type of the grouping map: the seeding `created` activity and the
update activities pushed in log order. -/
structure IntentGroup where
  created : Activity
  updates : List Activity
deriving Repr, DecidableEq

/-- JS `Map.get`. -/
def mapGet {α : Type} (m : List (String × α)) (k : String) : Option α :=
  (m.find? (fun e => e.1 == k)).map (fun e => e.2)

/-- JS `Map.set`: overwrite in place, append when the key is new. -/
def mapSet {α : Type} (m : List (String × α)) (k : String) (v : α) :
    List (String × α) :=
  if m.any (fun e => e.1 == k) then
    m.map (fun e => if e.1 == k then (k, v) else e)
  else m ++ [(k, v)]

/-- One step of the grouping loop: skip activities with a falsy
`data.intent_id`; a `scp_intent_created` activity (re)seeds the entry;
any other action is pushed as an update only when the intent is already
known. -/
def intentFoldStep (m : List (String × IntentGroup)) (a : Activity) :
    List (String × IntentGroup) :=
  match a.data.intent_id with
  | none => m
  | some intentId =>
    if intentId = "" then m
    else if a.action = "scp_intent_created" then
      mapSet m intentId { created := a, updates := [] }
    else
      match mapGet m intentId with
      | some g => mapSet m intentId { g with updates := g.updates ++ [a] }
      | none => m

/-- The `Find latest status` loop: start from `created` and the seeding
activity's timestamp; every update whose `data.status` is truthy overwrites
both the status and `updated_at`. -/
def latestStatus (created : Activity) (updates : List Activity) :
    String × String :=
  updates.foldl
    (fun acc u =>
      match u.data.status with
      | some s => if s = "" then acc else (s, u.timestamp)
      | none => acc)
    ("created", created.timestamp)

/-- Milestone entry of an SCP intent object. -/
structure Milestone where
  timestamp : String
  event : String
  details : ActivityData
  source : String
deriving Repr, DecidableEq

/-- `SCPIntent` object assembled by `transformIntentsToSCP`. -/
structure SCPIntent where
  intent_id : String
  customer_id : String
  base_intent : String
  mechanism : String
  ai_assistant : Option String
  ai_session_id : Option String
  created_at : String
  updated_at : String
  expires_at : Option String
  status : String
  context : List (String × String)
  visibility : String
  shared_with : Option (List String)
  milestones : List Milestone
deriving Repr, DecidableEq

/-- Assembly of one SCP intent object from a grouped entry. -/
def buildIntent (customerId intentId : String) (g : IntentGroup) : SCPIntent :=
  let created := g.created
  let fold := latestStatus created g.updates
  { intent_id := intentId
    customer_id := customerId
    base_intent := strOr created.data.base_intent ""
    mechanism := strOr created.data.mechanism "conversational_ai"
    ai_assistant := created.data.ai_assistant
    ai_session_id := created.data.ai_session_id
    created_at := created.timestamp
    updated_at := fold.2
    expires_at := created.data.expires_at
    status := fold.1
    context := created.data.context.getD []
    visibility := strOr created.data.visibility "merchant_only"
    shared_with := created.data.shared_with
    milestones :=
      { timestamp := created.timestamp
        event := "created"
        details := created.data
        source := strOr created.data.source "merchant" } ::
      g.updates.map (fun u =>
        { timestamp := u.timestamp
          event := jsReplaceFirst u.action "scp_intent_" ""
          details := u.data
          source := strOr u.data.source "merchant" }) }

/-- `transformIntentsToSCP(customerId, activities)` from
`src/rpc/handler.ts`. -/
def transformIntentsToSCP (customerId : String) (activities : List Activity) :
    List SCPIntent :=
  (activities.foldl intentFoldStep []).map
    (fun e => buildIntent customerId e.1 e.2)

/-! ## Test fixtures

Concrete instantiations of the abstracted platform primitives and of the
stores, used by the witness and counterexample theorems. The MAC maps `.`
to `_` so that its output never contains the separator, as a real
base64url HMAC does not. -/

/-- Concrete payload without an `exp` claim. -/
def payNoExp : TokenPayload :=
  { sub := "cust1", email := "a@example.com", scopes := ["orders"],
    type := "access_token", iat := 0, exp := none }

/-- Concrete payload whose `exp` is 1 (long past). -/
def payExp1 : TokenPayload :=
  { sub := "cust1", email := "a@example.com", scopes := ["orders"],
    type := "access_token", iat := 0, exp := some 1 }

/-- Concrete codec primitives for witnesses. -/
def testPrims : JwtPrims :=
  { mac := fun d s =>
      "MAC" ++ String.mk ((d ++ s).data.map (fun c => if c = '.' then '_' else c))
    encodedHeader := "HDR"
    encodePayload := fun _ => "PL"
    decodePayload := fun s =>
      if s = "payNoExp" then some payNoExp
      else if s = "payExp1" then some payExp1
      else none
    decodeHeaderAlg := fun h =>
      if h = "HDR" then some "HS256"
      else if h = "hdrNone" then some "none"
      else none }

/-- Concrete PKCE transform for witnesses. -/
def testS256 : String → String := fun v => "S" ++ v

/-- Concrete unused authorization-code row. -/
def codeRow1 : AuthCodeRow :=
  { code := "code1", customer_email := "a@example.com",
    cordial_contact_id := "cust1", client_id := "client1",
    scopes := ["orders"], code_challenge := "Sver", expires_at := 1000000,
    used := false, created_at := 0 }

/-- Concrete refresh-token row. -/
def rtRow1 : RefreshTokenRow :=
  { token := "rtok1", customer_email := "a@example.com",
    cordial_contact_id := "cust1", client_id := "client1",
    scopes := ["orders"], expires_at := 1000000, created_at := 0,
    last_used := none }

/-- Concrete pending authorization request. -/
def authReq1 : AuthRequestStored :=
  { id := "req1", email := "a@example.com", customer_id := none,
    client_id := "client1", client_name := "Client One",
    scopes := ["orders"], code_challenge := "Sver", status := "pending",
    code := none, created_at := 0, expires_at := 600000 }

/-- Concrete server state holding one of each artifact. -/
def st0 : ServerState :=
  { authRequests := [("req1", authReq1)]
    magicLinkTokens := [("tok1", "req1")]
    authCodes := [codeRow1]
    refreshTokens := [rtRow1] }

/-! ## Claims -/

/-- Helper for C1: after `UPDATE auth_codes SET used = 1 WHERE code = ?`,
the fetch filtered on `used = 0` finds nothing for that code. -/
lemma find_unused_after_mark (l : List AuthCodeRow) (code : String) :
    (l.map (fun r => if r.code == code then { r with used := true } else r)).find?
      (fun r => r.code == code && r.used == false) = none := by
  rw [List.find?_eq_none]
  intro x hx
  simp only [List.mem_map] at hx
  obtain ⟨a, _, rfl⟩ := hx
  by_cases hc : a.code == code
  · simp [hc]
  · simp [hc]

/-- C1: once an exchange of an authorization code succeeds, any second
sequential exchange of the same code — under any verifier, client id,
clock, secret or even different platform primitives — fails with the
`Invalid or used authorization code` error (mapped to `invalid_grant` by
the token endpoint): the fetch filters on `used = 0` and the first success
flipped `used` to 1 for that code. -/
theorem exchange_code_single_use (P P2 : JwtPrims)
    (s256 s2562 : String → String) (code v1 c1 secret1 : String) (now1 : Int)
    (nrt1 : String) (v2 c2 secret2 : String) (now2 : Int) (nrt2 : String)
    (st : ServerState) (resp : ExchangeResponse)
    (hok : (exchangeCodeForTokens P s256 code v1 c1 secret1 now1 nrt1 st).1 =
      .ok resp) :
    (exchangeCodeForTokens P2 s2562 code v2 c2 secret2 now2 nrt2
        ((exchangeCodeForTokens P s256 code v1 c1 secret1 now1 nrt1 st).2)).1 =
      .error .invalidOrUsedCode := by
  unfold exchangeCodeForTokens at hok ⊢
  rcases hfind : st.authCodes.find? (fun r => r.code == code && r.used == false)
    with _ | result
  · rw [hfind] at hok
    simp at hok
  · rw [hfind] at hok ⊢
    by_cases h1 : result.expires_at < now1
    · simp [h1] at hok
    by_cases h2 : result.client_id ≠ c1
    · simp [h1, h2] at hok
    by_cases h3 : ¬ verifyPKCE s256 v1 result.code_challenge
    · simp [h1, h2, h3] at hok
    simp only [if_neg h1, if_neg h2, if_neg h3]
    rw [find_unused_after_mark]

/-- Witness for C1: the first exchange of `code1` succeeds and the second
fails with the used-code error. -/
theorem exchange_code_single_use_witness :
    (exchangeCodeForTokens testPrims testS256 "code1" "ver" "client1" "sec"
        10 "rt1" st0).1 =
      .ok { access_token :=
              generateAccessToken testPrims "cust1" "a@example.com"
                ["orders"] "sec" 0
            refresh_token := "rt1", token_type := "Bearer",
            expires_in := 3600, scope := joinSpace ["orders"],
            customer_id := "cust1", email := "a@example.com" } ∧
    (exchangeCodeForTokens testPrims testS256 "code1" "ver2" "client2" "sec2"
        20 "rt2"
        ((exchangeCodeForTokens testPrims testS256 "code1" "ver" "client1"
            "sec" 10 "rt1" st0).2)).1 =
      .error .invalidOrUsedCode :=
  ⟨by rfl,
    exchange_code_single_use testPrims testPrims testS256 testS256 "code1"
      "ver" "client1" "sec" 10 "rt1" "ver2" "client2" "sec2" 20 "rt2" st0
      { access_token :=
          generateAccessToken testPrims "cust1" "a@example.com" ["orders"]
            "sec" 0
        refresh_token := "rt1", token_type := "Bearer", expires_in := 3600,
        scope := joinSpace ["orders"], customer_id := "cust1",
        email := "a@example.com" }
      (by rfl)⟩

/-- C4: for every RPC request whose method is one of the eight dispatched
methods and whose verified token carries a scope set not containing that
method's single required scope, the dispatcher returns the -32001 error
whose message names the missing scope, and no handler is invoked (the
route result is an error, not a `HandlerCall`). -/
theorem missing_scope_blocks_dispatch (method required : String)
    (params : Params) (customerId : String) (scopes : List String)
    (hreq : requiredScope method = some required)
    (hmiss : required ∉ scopes) :
    routeMethod method params customerId scopes =
      .error (createError (-32001)
        ("Forbidden: missing scope \x27" ++ required ++ "\x27")) ∧
    (∀ (P : JwtPrims) (req : JSONRPCRequest) (accessToken secret : String)
        (nowSec : Int) (payload : TokenPayload),
      verifyAccessToken P accessToken secret nowSec = .ok payload →
      payload.sub = customerId → payload.scopes = scopes →
      req.method = method → req.params = params →
      handleRPCRequest P req accessToken secret nowSec =
        { jsonrpc := "2.0", id := req.id,
          outcome := .rpcError (-32001)
            ("Forbidden: missing scope \x27" ++ required ++ "\x27") }) := by
  have hroute : routeMethod method params customerId scopes =
      .error (createError (-32001)
        ("Forbidden: missing scope \x27" ++ required ++ "\x27")) := by
    unfold requiredScope at hreq
    split at hreq
    case h_9 => exact Option.noConfusion hreq
    all_goals injection hreq with hh
    all_goals subst hh
    all_goals simp [routeMethod, checkScope, hmiss, bind, Except.bind]
  refine ⟨hroute, ?_⟩
  intro P req accessToken secret nowSec payload hv hsub hsc hm hp
  unfold handleRPCRequest
  simp only [hv]
  unfold routeAndWrap
  rw [hm, hp, hsub, hsc]
  simp only [hroute]
  rfl

/-- Witness for C4: a token holding only `loyalty` is turned away from
`scp.get_orders` with the message naming `orders`. -/
theorem missing_scope_blocks_dispatch_witness :
    requiredScope "scp.get_loyalty" = some "loyalty" ∧
    "loyalty" ∉ (["orders"] : List String) ∧
    routeMethod "scp.get_loyalty" [] "cust1" ["orders"] =
      .error (createError (-32001)
        ("Forbidden: missing scope \x27" ++ "loyalty" ++ "\x27")) ∧
    handleRPCRequest testPrims
        { id := .inl 7, method := "scp.get_loyalty", params := [] }
        "HDR.payNoExp.MACHDR_payNoExpsec" "sec" 0 =
      { jsonrpc := "2.0", id := .inl 7,
        outcome := .rpcError (-32001)
          ("Forbidden: missing scope \x27" ++ "loyalty" ++ "\x27") } :=
  ⟨rfl, by decide,
    (missing_scope_blocks_dispatch "scp.get_loyalty" "loyalty" [] "cust1"
      ["orders"] rfl (by decide)).1,
    (missing_scope_blocks_dispatch "scp.get_loyalty" "loyalty" [] "cust1"
      ["orders"] rfl (by decide)).2 testPrims
      { id := .inl 7, method := "scp.get_loyalty", params := [] }
      "HDR.payNoExp.MACHDR_payNoExpsec" "sec" 0 payNoExp (by rfl) rfl rfl
      rfl rfl⟩

/-- Helper for C5/C6: inversion of a successful refresh — the row was
found, unexpired, owned by the caller, and the response and the new state
have the literal shapes of the success branch. -/
lemma refresh_ok_inv (P : JwtPrims) (refreshToken clientId secret : String)
    (now : Int) (newRefreshToken : String) (st : ServerState)
    (resp : RefreshResponse)
    (hok : (refreshAccessToken P refreshToken clientId secret now
        newRefreshToken st).1 = .ok resp) :
    ∃ result,
      st.refreshTokens.find? (fun r => r.token == refreshToken) = some result ∧
      ¬ result.expires_at < now ∧ result.client_id = clientId ∧
      resp = { access_token := generateAccessToken P result.cordial_contact_id
                 result.customer_email result.scopes secret (now / 1000)
               refresh_token := newRefreshToken
               token_type := "Bearer"
               expires_in := 3600
               scope := joinSpace result.scopes } ∧
      (refreshAccessToken P refreshToken clientId secret now
          newRefreshToken st).2 =
        { st with refreshTokens := st.refreshTokens.map (fun r =>
            if r.token == refreshToken then
              { r with token := newRefreshToken, last_used := some now }
            else r) } := by
  unfold refreshAccessToken at hok
  rcases hfind : st.refreshTokens.find? (fun r => r.token == refreshToken)
    with _ | result
  · rw [hfind] at hok
    simp at hok
  · rw [hfind] at hok
    by_cases h1 : result.expires_at < now
    · simp [h1] at hok
    by_cases h2 : result.client_id ≠ clientId
    · simp [h1, h2] at hok
    simp only [if_neg h1, if_neg h2] at hok
    injection hok with hresp
    refine ⟨result, hfind, h1, not_ne_iff.mp h2, hresp.symm, ?_⟩
    unfold refreshAccessToken
    rw [hfind]
    simp only [if_neg h1, if_neg h2]

/-- Helper for C6: after the rotation update, no row carries the old token
value (the matching rows now carry the new value, the others never
matched). -/
lemma find_token_after_rotate (l : List RefreshTokenRow) (rt nrt : String)
    (now : Int) (hne : nrt ≠ rt) :
    (l.map (fun r => if r.token == rt then
        { r with token := nrt, last_used := some now }
      else r)).find? (fun r => r.token == rt) = none := by
  rw [List.find?_eq_none]
  intro x hx
  simp only [List.mem_map] at hx
  obtain ⟨a, _, rfl⟩ := hx
  by_cases hc : a.token == rt
  · simp [hc, hne]
  · simp [hc]

/-- C5: a successful refresh returns exactly the stored row's scope set —
in the response `scope` field (space-joined) and in the claims of the
newly minted access token — and leaves the `scopes` column of every stored
row untouched. -/
theorem refresh_preserves_scope_set (P : JwtPrims)
    (refreshToken clientId secret : String) (now : Int)
    (newRefreshToken : String) (st : ServerState) (resp : RefreshResponse)
    (result : RefreshTokenRow)
    (hfind : st.refreshTokens.find? (fun r => r.token == refreshToken) =
      some result)
    (hok : (refreshAccessToken P refreshToken clientId secret now
        newRefreshToken st).1 = .ok resp) :
    resp.scope = joinSpace result.scopes ∧
    resp.access_token = generateAccessToken P result.cordial_contact_id
      result.customer_email result.scopes secret (now / 1000) ∧
    (accessTokenPayload result.cordial_contact_id result.customer_email
        result.scopes (now / 1000)).scopes = result.scopes ∧
    ((refreshAccessToken P refreshToken clientId secret now
        newRefreshToken st).2).refreshTokens.map RefreshTokenRow.scopes =
      st.refreshTokens.map RefreshTokenRow.scopes := by
  obtain ⟨result2, hfind2, _, _, hresp, hstate⟩ :=
    refresh_ok_inv P refreshToken clientId secret now newRefreshToken st
      resp hok
  rw [hfind] at hfind2
  injection hfind2 with he
  subst he
  refine ⟨by rw [hresp], by rw [hresp], rfl, ?_⟩
  rw [hstate]
  simp only [List.map_map]
  refine List.map_congr_left (fun r _ => ?_)
  by_cases hc : r.token == refreshToken
  · simp [hc, Function.comp]
  · simp [hc, Function.comp]

/-- C6: a successful refresh rotates the row in place — the table keeps
its length, every resulting row comes from an original row with
`customer_email`, `cordial_contact_id`, `client_id`, `scopes`,
`expires_at` and `created_at` unchanged, the matching row changing only
its token value and `last_used` — and afterwards the old token value
resolves to no row, so a subsequent refresh presenting it fails with the
`Invalid refresh token` error (mapped to `invalid_grant`). -/
theorem refresh_rotates_in_place (P P2 : JwtPrims)
    (refreshToken clientId secret : String) (now : Int)
    (newRefreshToken : String) (st : ServerState) (resp : RefreshResponse)
    (clientId2 secret2 : String) (now2 : Int) (newRefreshToken2 : String)
    (hok : (refreshAccessToken P refreshToken clientId secret now
        newRefreshToken st).1 = .ok resp)
    (hne : newRefreshToken ≠ refreshToken) :
    ((refreshAccessToken P refreshToken clientId secret now
        newRefreshToken st).2).refreshTokens.length =
      st.refreshTokens.length ∧
    (∀ r1 ∈ ((refreshAccessToken P refreshToken clientId secret now
        newRefreshToken st).2).refreshTokens,
      ∃ r ∈ st.refreshTokens,
        r1.customer_email = r.customer_email ∧
        r1.cordial_contact_id = r.cordial_contact_id ∧
        r1.client_id = r.client_id ∧ r1.scopes = r.scopes ∧
        r1.expires_at = r.expires_at ∧ r1.created_at = r.created_at ∧
        ((r.token = refreshToken ∧ r1.token = newRefreshToken ∧
            r1.last_used = some now) ∨
          (r.token ≠ refreshToken ∧ r1 = r))) ∧
    ((refreshAccessToken P refreshToken clientId secret now
        newRefreshToken st).2).refreshTokens.find?
      (fun r => r.token == refreshToken) = none ∧
    (refreshAccessToken P2 refreshToken clientId2 secret2 now2
        newRefreshToken2
        ((refreshAccessToken P refreshToken clientId secret now
            newRefreshToken st).2)).1 = .error .invalidRefreshToken := by
  obtain ⟨result, hfind, _, _, hresp, hstate⟩ :=
    refresh_ok_inv P refreshToken clientId secret now newRefreshToken st
      resp hok
  rw [hstate]
  have hnone := find_token_after_rotate st.refreshTokens refreshToken
    newRefreshToken now hne
  refine ⟨List.length_map _ _, ?_, hnone, ?_⟩
  · intro r1 h1
    simp only [List.mem_map] at h1
    obtain ⟨r, hr, rfl⟩ := h1
    refine ⟨r, hr, ?_⟩
    by_cases hc : r.token == refreshToken
    · have hceq : r.token = refreshToken := by simpa using hc
      simp [hc, hceq]
    · have hcne : ¬ r.token = refreshToken := by simpa using hc
      simp [hc, hcne]
  · unfold refreshAccessToken
    simp only [hnone]

/-- Response of the concrete refresh used by the C5 and C6 witnesses. -/
def c5Resp : RefreshResponse :=
  { access_token := generateAccessToken testPrims "cust1" "a@example.com"
      ["orders"] "sec" 0
    refresh_token := "newrt", token_type := "Bearer", expires_in := 3600,
    scope := joinSpace ["orders"] }

/-- Witness for C5 at the concrete one-row store. -/
theorem refresh_preserves_scope_set_witness :
    (refreshAccessToken testPrims "rtok1" "client1" "sec" 10 "newrt" st0).1 =
      .ok c5Resp ∧
    (c5Resp.scope = joinSpace rtRow1.scopes ∧
      c5Resp.access_token = generateAccessToken testPrims
        rtRow1.cordial_contact_id rtRow1.customer_email rtRow1.scopes "sec"
        (10 / 1000) ∧
      (accessTokenPayload rtRow1.cordial_contact_id rtRow1.customer_email
          rtRow1.scopes (10 / 1000)).scopes = rtRow1.scopes ∧
      ((refreshAccessToken testPrims "rtok1" "client1" "sec" 10 "newrt"
          st0).2).refreshTokens.map RefreshTokenRow.scopes =
        st0.refreshTokens.map RefreshTokenRow.scopes) :=
  ⟨rfl,
    refresh_preserves_scope_set testPrims "rtok1" "client1" "sec" 10 "newrt"
      st0 c5Resp rtRow1 rfl rfl⟩

/-- Witness for C6 at the concrete one-row store. -/
theorem refresh_rotates_in_place_witness :
    (refreshAccessToken testPrims "rtok1" "client1" "sec" 10 "newrt" st0).1 =
      .ok c5Resp ∧
    ("newrt" : String) ≠ "rtok1" ∧
    (((refreshAccessToken testPrims "rtok1" "client1" "sec" 10 "newrt"
          st0).2).refreshTokens.length = st0.refreshTokens.length ∧
      (∀ r1 ∈ ((refreshAccessToken testPrims "rtok1" "client1" "sec" 10
          "newrt" st0).2).refreshTokens,
        ∃ r ∈ st0.refreshTokens,
          r1.customer_email = r.customer_email ∧
          r1.cordial_contact_id = r.cordial_contact_id ∧
          r1.client_id = r.client_id ∧ r1.scopes = r.scopes ∧
          r1.expires_at = r.expires_at ∧ r1.created_at = r.created_at ∧
          ((r.token = "rtok1" ∧ r1.token = "newrt" ∧
              r1.last_used = some 10) ∨
            (r.token ≠ "rtok1" ∧ r1 = r))) ∧
      ((refreshAccessToken testPrims "rtok1" "client1" "sec" 10 "newrt"
          st0).2).refreshTokens.find? (fun r => r.token == "rtok1") = none ∧
      (refreshAccessToken testPrims "rtok1" "client2" "sec2" 20 "nrt2"
          ((refreshAccessToken testPrims "rtok1" "client1" "sec" 10 "newrt"
              st0).2)).1 = .error .invalidRefreshToken) :=
  ⟨rfl, by decide,
    refresh_rotates_in_place testPrims testPrims "rtok1" "client1" "sec" 10
      "newrt" st0 c5Resp "client2" "sec2" 20 "nrt2" rfl (by decide)⟩

/-- Helper: a `get` after a `put` of the same key sees the new value. -/
lemma kvGet_kvPut_self {α : Type} (store : KV α) (k : String) (v : α) :
    kvGet (kvPut store k v) k = some v := by
  unfold kvGet kvPut
  simp

/-- Helper: a `get` after a `delete` of the same key sees nothing. -/
lemma kvGet_kvDelete_self {α : Type} (store : KV α) (k : String) :
    kvGet (kvDelete store k) k = none := by
  unfold kvGet kvDelete
  rw [Option.map_eq_none', List.find?_eq_none]
  intro x hx
  have := List.of_mem_filter hx
  simpa using this

/-- Concrete authorization request whose recorded expiry is long past. -/
def authReqExpired : AuthRequestStored :=
  { authReq1 with expires_at := 5 }

/-- Concrete state holding the expired request and its live magic-link
mapping (the transient store has not evicted them yet). -/
def stExpired : ServerState :=
  { authRequests := [("req1", authReqExpired)]
    magicLinkTokens := [("tok1", "req1")]
    authCodes := []
    refreshTokens := [] }

/-- Counterexample to C3 as stated: `confirmAuthorization` reads the
TTL-limited authorization request but performs no timestamp comparison —
at time 100, with the stored request expired at 5 yet still returned by
the store, confirm does not reject it as expired: it succeeds outright. -/
theorem confirm_ignores_stored_expiry :
    kvGet stExpired.magicLinkTokens "tok1" = some "req1" ∧
    kvGet stExpired.authRequests "req1" = some authReqExpired ∧
    authReqExpired.expires_at < 100 ∧
    (confirmAuthorization "tok1" (fun _ => some "cust1") "code9" 100
        stExpired).1 = .ok () :=
  ⟨rfl, rfl, by decide, by rfl⟩

/-- C3 (amended): poll, exchange, refresh and token verification all
reject a stale artifact by an explicit comparison of its recorded expiry
timestamp against the current time, even when the backing store still
returns the record (verification only behind a valid signature and for a
truthy `exp`); `confirmAuthorization`, however, performs no such
comparison on the authorization request, and magic-link mappings record no
expiry at all, so confirm relies solely on store-side eviction. -/
theorem explicit_expiry_checks :
    (∀ (st : ServerState) (id clientId : String) (now : Int)
        (req : AuthRequestStored),
      kvGet st.authRequests id = some req → req.client_id = clientId →
      req.expires_at < now →
      pollAuthorization id clientId now st =
        .ok { status := "expired", code := none, expires_in := none }) ∧
    (∀ (P : JwtPrims) (s256 : String → String)
        (code v c secret : String) (now : Int) (nrt : String)
        (st : ServerState) (row : AuthCodeRow),
      st.authCodes.find? (fun r => r.code == code && r.used == false) =
        some row →
      row.expires_at < now →
      exchangeCodeForTokens P s256 code v c secret now nrt st =
        (.error .codeExpired, st)) ∧
    (∀ (P : JwtPrims) (rt c secret : String) (now : Int) (nrt : String)
        (st : ServerState) (row : RefreshTokenRow),
      st.refreshTokens.find? (fun r => r.token == rt) = some row →
      row.expires_at < now →
      refreshAccessToken P rt c secret now nrt st =
        (.error .refreshTokenExpired, st)) ∧
    (∀ (P : JwtPrims) (token secret h p s : String) (payload : TokenPayload)
        (e nowSec : Int),
      jsSplit token '.' = [h, p, s] → P.mac (h ++ "." ++ p) secret = s →
      P.decodePayload p = some payload → payload.exp = some e → e ≠ 0 →
      e < nowSec → verifyJWT P token secret nowSec = .error .expired) := by
  refine ⟨?_, ?_, ?_, ?_⟩
  · intro st id clientId now req hget hcl hexp
    unfold pollAuthorization
    simp only [hget]
    simp [hcl, hexp]
  · intro P s256 code v c secret now nrt st row hfind hexp
    unfold exchangeCodeForTokens
    simp only [hfind]
    simp [hexp]
  · intro P rt c secret now nrt st row hfind hexp
    unfold refreshAccessToken
    simp only [hfind]
    simp [hexp]
  · intro P token secret h p s payload e nowSec hsplit hsig hdec hexp hne hlt
    unfold verifyJWT
    rw [hsplit]
    simp [hsig, hdec, expGate, hexp, hne, hlt]

/-- Witness for the amended C3, instantiating all four conjuncts on the
concrete stores: a stale request polls as expired, a stale code and a
stale refresh token are rejected at exchange/refresh time, and a stale
signed token fails verification. -/
theorem explicit_expiry_checks_witness :
    pollAuthorization "req1" "client1" 700000 st0 =
      .ok { status := "expired", code := none, expires_in := none } ∧
    exchangeCodeForTokens testPrims testS256 "code1" "ver" "client1" "sec"
        2000000 "rt" st0 = (.error .codeExpired, st0) ∧
    refreshAccessToken testPrims "rtok1" "client1" "sec" 2000000 "rt" st0 =
      (.error .refreshTokenExpired, st0) ∧
    verifyJWT testPrims "HDR.payExp1.MACHDR_payExp1sec" "sec" 200 =
      .error .expired :=
  ⟨explicit_expiry_checks.1 st0 "req1" "client1" 700000 authReq1 rfl rfl
      (by decide),
    explicit_expiry_checks.2.1 testPrims testS256 "code1" "ver" "client1"
      "sec" 2000000 "rt" st0 codeRow1 rfl (by decide),
    explicit_expiry_checks.2.2.1 testPrims "rtok1" "client1" "sec" 2000000
      "rt" st0 rtRow1 rfl (by decide),
    explicit_expiry_checks.2.2.2 testPrims "HDR.payExp1.MACHDR_payExp1sec"
      "sec" "HDR" "payExp1" "MACHDR_payExp1sec" payExp1 1 200 (by decide)
      rfl rfl rfl (by decide) (by decide)⟩

/-- Counterexample to C2 as stated: when the first confirm ends in the
customer-not-found outcome, the token-to-request mapping is NOT deleted —
it is removed only at the end of the success path — so a second confirm
with the same token does not fail with the invalid-link error (it re-runs
verification and fails with customer-not-found again). -/
theorem confirm_denied_keeps_magic_mapping :
    (confirmAuthorization "tok1" (fun _ => none) "c2" 0 st0).1 =
      .error .customerNotFound ∧
    kvGet ((confirmAuthorization "tok1" (fun _ => none) "c2" 0
        st0).2).magicLinkTokens "tok1" = some "req1" ∧
    (confirmAuthorization "tok1" (fun _ => none) "c2" 0
        ((confirmAuthorization "tok1" (fun _ => none) "c2" 0 st0).2)).1 ≠
      .error .invalidLink := by
  refine ⟨by rfl, by rfl, ?_⟩
  intro h
  exact absurd (Except.error.inj h) (by decide)

/-- C2 (amended): when the first confirm of a magic-link token succeeds,
the authorization request it maps to is persisted with
`status = authorized` and the fresh code, the mapping is deleted, and a
second confirm of the same token — with any verifier, code or clock —
fails with the invalid-link error and leaves the stored state completely
unchanged. (Deletion of the mapping happens only on the successful
outcome.) -/
theorem confirm_success_single_use (magicToken : String)
    (verifyEmail : String → Option String) (newCode : String) (now : Int)
    (st : ServerState) (verifyEmail2 : String → Option String)
    (newCode2 : String) (now2 : Int)
    (hok : (confirmAuthorization magicToken verifyEmail newCode now st).1 =
      .ok ()) :
    (∃ rid req,
      kvGet st.magicLinkTokens magicToken = some rid ∧
      kvGet ((confirmAuthorization magicToken verifyEmail newCode now
          st).2).authRequests rid = some req ∧
      req.status = "authorized" ∧ req.code = some newCode) ∧
    kvGet ((confirmAuthorization magicToken verifyEmail newCode now
        st).2).magicLinkTokens magicToken = none ∧
    confirmAuthorization magicToken verifyEmail2 newCode2 now2
        ((confirmAuthorization magicToken verifyEmail newCode now st).2) =
      (.error .invalidLink,
        (confirmAuthorization magicToken verifyEmail newCode now st).2) := by
  unfold confirmAuthorization at hok
  rcases hmt : kvGet st.magicLinkTokens magicToken with _ | rid
  · simp only [hmt] at hok
    simp at hok
  · simp only [hmt] at hok
    rcases hreq : kvGet st.authRequests rid with _ | authRequest
    · simp only [hreq] at hok
      simp at hok
    · simp only [hreq] at hok
      rcases hver : verifyEmail authRequest.email with _ | customerId
      · simp only [hver] at hok
        simp at hok
      · simp only [hver] at hok
        have hstate : (confirmAuthorization magicToken verifyEmail newCode
            now st).2 =
            { st with
              authCodes := st.authCodes ++
                [{ code := newCode
                   customer_email := authRequest.email
                   cordial_contact_id := customerId
                   client_id := authRequest.client_id
                   scopes := authRequest.scopes
                   code_challenge := authRequest.code_challenge
                   expires_at := now + 5 * 60 * 1000
                   used := false
                   created_at := now }]
              authRequests := kvPut st.authRequests rid
                { authRequest with
                  status := "authorized"
                  code := some newCode
                  customer_id := some customerId }
              magicLinkTokens := kvDelete st.magicLinkTokens magicToken } := by
          unfold confirmAuthorization
          simp only [hmt, hreq, hver]
        have hdel : kvGet ((confirmAuthorization magicToken verifyEmail
            newCode now st).2).magicLinkTokens magicToken = none := by
          rw [hstate]
          exact kvGet_kvDelete_self st.magicLinkTokens magicToken
        refine ⟨⟨rid,
          { authRequest with
            status := "authorized"
            code := some newCode
            customer_id := some customerId }, rfl, ?_, rfl, rfl⟩, hdel, ?_⟩
        · rw [hstate]
          exact kvGet_kvPut_self st.authRequests rid _
        · rw [hstate]
          simp only [confirmAuthorization, kvGet_kvDelete_self]

/-- Witness for the amended C2: confirming `tok1` once succeeds and
authorizes `req1`; the second confirm fails with the invalid-link error
and changes nothing. -/
theorem confirm_success_single_use_witness :
    (confirmAuthorization "tok1" (fun _ => some "cust1") "code9" 50 st0).1 =
      .ok () ∧
    ((∃ rid req,
        kvGet st0.magicLinkTokens "tok1" = some rid ∧
        kvGet ((confirmAuthorization "tok1" (fun _ => some "cust1") "code9"
            50 st0).2).authRequests rid = some req ∧
        req.status = "authorized" ∧ req.code = some "code9") ∧
      kvGet ((confirmAuthorization "tok1" (fun _ => some "cust1") "code9" 50
          st0).2).magicLinkTokens "tok1" = none ∧
      confirmAuthorization "tok1" (fun _ => some "other") "codeX" 60
          ((confirmAuthorization "tok1" (fun _ => some "cust1") "code9" 50
              st0).2) =
        (.error .invalidLink,
          (confirmAuthorization "tok1" (fun _ => some "cust1") "code9" 50
              st0).2)) :=
  ⟨by rfl,
    confirm_success_single_use "tok1" (fun _ => some "cust1") "code9" 50 st0
      (fun _ => some "other") "codeX" 60 (by rfl)⟩

/-- Counterexample to C7 as stated: a three-part token whose header
declares algorithm `none` but whose third part is the correct recomputed
HMAC-SHA-256 over `header.payload` under the right secret is accepted by
`verifyJWT` — the verifier never decodes the header, so a foreign declared
algorithm does not cause rejection. -/
theorem verify_accepts_foreign_alg_header :
    testPrims.decodeHeaderAlg "hdrNone" = some "none" ∧
    ("none" : String) ≠ "HS256" ∧
    "MAChdrNone_payNoExpsec" =
      testPrims.mac ("hdrNone" ++ "." ++ "payNoExp") "sec" ∧
    verifyJWT testPrims "hdrNone.payNoExp.MAChdrNone_payNoExpsec" "sec" 100 =
      .ok payNoExp :=
  ⟨rfl, by decide, rfl, by rfl⟩

/-- C7 (amended): `verifyJWT` never inspects the declared algorithm; its
verdict is a function of the recomputed HMAC-SHA-256 alone. Whatever the
header part `h` of a three-part token declares, the token is accepted when
its signature equals the recomputed MAC (and the payload decodes and is
unexpired), and rejected with the signature error when it does not. -/
theorem verify_ignores_declared_alg (P : JwtPrims)
    (token secret h p s : String) (nowSec : Int)
    (hsplit : jsSplit token '.' = [h, p, s]) :
    (∀ payload, s = P.mac (h ++ "." ++ p) secret →
      P.decodePayload p = some payload →
      expGate payload.exp nowSec = false →
      verifyJWT P token secret nowSec = .ok payload) ∧
    (s ≠ P.mac (h ++ "." ++ p) secret →
      verifyJWT P token secret nowSec = .error .invalidSignature) := by
  constructor
  · intro payload hsig hdec hexp
    unfold verifyJWT
    rw [hsplit]
    simp [hsig, hdec, hexp]
  · intro hbad
    unfold verifyJWT
    rw [hsplit]
    simp [hbad]

/-- Witness for the amended C7: the foreign-alg token of the
counterexample is accepted through the general theorem. -/
theorem verify_ignores_declared_alg_witness :
    jsSplit "hdrNone.payNoExp.MAChdrNone_payNoExpsec" '.' =
      ["hdrNone", "payNoExp", "MAChdrNone_payNoExpsec"] ∧
    verifyJWT testPrims "hdrNone.payNoExp.MAChdrNone_payNoExpsec" "sec" 100 =
      .ok payNoExp :=
  ⟨by decide,
    (verify_ignores_declared_alg testPrims
        "hdrNone.payNoExp.MAChdrNone_payNoExpsec" "sec" "hdrNone" "payNoExp"
        "MAChdrNone_payNoExpsec" 100 (by decide)).1 payNoExp rfl rfl rfl⟩

/-- Counterexample to C8 as stated: a token whose `exp` lies in the past
but whose signature is invalid fails with the signature error, not an
expiry error — the signature comparison precedes the expiry check. -/
theorem verify_reports_bad_signature_before_expiry :
    testPrims.decodePayload "payExp1" = some payExp1 ∧
    payExp1.exp = some 1 ∧ (1 : Int) < 100 ∧
    "BAD" ≠ testPrims.mac ("HDR" ++ "." ++ "payExp1") "sec" ∧
    verifyJWT testPrims "HDR.payExp1.BAD" "sec" 100 =
      .error .invalidSignature :=
  ⟨rfl, rfl, by decide, by decide, by rfl⟩

/-- C8 (amended): the expiry error is reported only behind a valid
signature. A three-part token with an invalid signature fails with the
signature error whatever its `exp`; with a valid signature and a decodable
payload whose nonzero `exp` has passed, verification fails with the
`JWT expired` error. -/
theorem verify_signature_then_expiry (P : JwtPrims)
    (token secret h p s : String) (nowSec : Int)
    (hsplit : jsSplit token '.' = [h, p, s]) :
    (s ≠ P.mac (h ++ "." ++ p) secret →
      verifyJWT P token secret nowSec = .error .invalidSignature) ∧
    (∀ payload e, s = P.mac (h ++ "." ++ p) secret →
      P.decodePayload p = some payload → payload.exp = some e → e ≠ 0 →
      e < nowSec → verifyJWT P token secret nowSec = .error .expired) := by
  constructor
  · intro hbad
    unfold verifyJWT
    rw [hsplit]
    simp [hbad]
  · intro payload e hsig hdec hexp hne hlt
    unfold verifyJWT
    rw [hsplit]
    simp [hsig, hdec, expGate, hexp, hne, hlt]

/-- Witness for the amended C8: a correctly signed token with `exp = 1`
fails at time 100 with the expiry error. -/
theorem verify_signature_then_expiry_witness :
    jsSplit "HDR.payExp1.MACHDR_payExp1sec" '.' =
      ["HDR", "payExp1", "MACHDR_payExp1sec"] ∧
    verifyJWT testPrims "HDR.payExp1.MACHDR_payExp1sec" "sec" 100 =
      .error .expired :=
  ⟨by decide,
    (verify_signature_then_expiry testPrims "HDR.payExp1.MACHDR_payExp1sec"
        "sec" "HDR" "payExp1" "MACHDR_payExp1sec" 100 (by decide)).2 payExp1
      1 rfl rfl rfl (by decide) (by decide)⟩

/-- C10: a correctly signed three-part token whose decoded payload carries
no `exp` claim verifies at every time — the expiry comparison is skipped —
and the RPC dispatcher accepts it at any future time, proceeding to route
with the claims it carries. -/
theorem verify_accepts_missing_exp_forever (P : JwtPrims)
    (token secret h p s : String) (payload : TokenPayload)
    (req : JSONRPCRequest)
    (hsplit : jsSplit token '.' = [h, p, s])
    (hsig : P.mac (h ++ "." ++ p) secret = s)
    (hdec : P.decodePayload p = some payload)
    (hexp : payload.exp = none) :
    ∀ nowSec : Int,
      verifyJWT P token secret nowSec = .ok payload ∧
      handleRPCRequest P req token secret nowSec = routeAndWrap req payload := by
  intro nowSec
  have hv : verifyJWT P token secret nowSec = .ok payload := by
    unfold verifyJWT
    rw [hsplit]
    simp [hsig, hdec, expGate, hexp]
  refine ⟨hv, ?_⟩
  unfold handleRPCRequest verifyAccessToken
  rw [hv]

/-- Witness for C10: the exp-less token passes verification and dispatch
at the far-future time 999999999. -/
theorem verify_accepts_missing_exp_forever_witness :
    jsSplit "HDR.payNoExp.MACHDR_payNoExpsec" '.' =
      ["HDR", "payNoExp", "MACHDR_payNoExpsec"] ∧
    verifyJWT testPrims "HDR.payNoExp.MACHDR_payNoExpsec" "sec" 999999999 =
      .ok payNoExp ∧
    handleRPCRequest testPrims
        { id := .inl 1, method := "scp.get_orders", params := [] }
        "HDR.payNoExp.MACHDR_payNoExpsec" "sec" 999999999 =
      routeAndWrap { id := .inl 1, method := "scp.get_orders", params := [] }
        payNoExp :=
  ⟨by decide,
    verify_accepts_missing_exp_forever testPrims
      "HDR.payNoExp.MACHDR_payNoExpsec" "sec" "HDR" "payNoExp"
      "MACHDR_payNoExpsec" payNoExp
      { id := .inl 1, method := "scp.get_orders", params := [] }
      (by decide) rfl rfl rfl 999999999⟩

/-- C9: over the log `[created(intent_id = X, status = created),
updated(X, status = fulfilled), updated(X, no status)]` the fold of
`transformIntentsToSCP` reconstructs exactly one intent, whose status is
`fulfilled` and whose `updated_at` is the timestamp of the second activity
— the last one that carried a status — not of the chronologically last
activity. -/
theorem intent_fold_last_status_wins (cid X ts1 ts2 ts3 : String)
    (d1 d2 d3 : ActivityData) (hX : X ≠ "")
    (h1i : d1.intent_id = some X) (h1s : d1.status = some "created")
    (h2i : d2.intent_id = some X) (h2s : d2.status = some "fulfilled")
    (h3i : d3.intent_id = some X) (h3s : d3.status = none) :
    (transformIntentsToSCP cid
        [{ action := "scp_intent_created", timestamp := ts1, data := d1 },
         { action := "scp_intent_updated", timestamp := ts2, data := d2 },
         { action := "scp_intent_updated", timestamp := ts3, data := d3 }]).map
        SCPIntent.status = ["fulfilled"] ∧
    (transformIntentsToSCP cid
        [{ action := "scp_intent_created", timestamp := ts1, data := d1 },
         { action := "scp_intent_updated", timestamp := ts2, data := d2 },
         { action := "scp_intent_updated", timestamp := ts3, data := d3 }]).map
        SCPIntent.updated_at = [ts2] := by
  constructor <;>
    simp [transformIntentsToSCP, intentFoldStep, mapGet, mapSet, latestStatus,
      buildIntent, hX, h1i, h2i, h3i, h2s, h3s]

/-- Witness for C9 at a concrete three-activity log. -/
theorem intent_fold_last_status_wins_witness :
    ("int1" : String) ≠ "" ∧
    (transformIntentsToSCP "cust1"
        [{ action := "scp_intent_created", timestamp := "t1",
           data := { intent_id := some "int1", status := some "created",
                     source := none, base_intent := some "buy boots",
                     mechanism := none, ai_assistant := none,
                     ai_session_id := none, expires_at := none,
                     context := none, visibility := none, shared_with := none } },
         { action := "scp_intent_updated", timestamp := "t2",
           data := { intent_id := some "int1", status := some "fulfilled",
                     source := none, base_intent := none, mechanism := none,
                     ai_assistant := none, ai_session_id := none,
                     expires_at := none, context := none, visibility := none,
                     shared_with := none } },
         { action := "scp_intent_updated", timestamp := "t3",
           data := { intent_id := some "int1", status := none, source := none,
                     base_intent := none, mechanism := none,
                     ai_assistant := none, ai_session_id := none,
                     expires_at := none, context := none, visibility := none,
                     shared_with := none } }]).map SCPIntent.status =
      ["fulfilled"] :=
  ⟨by decide,
    (intent_fold_last_status_wins "cust1" "int1" "t1" "t2" "t3"
      { intent_id := some "int1", status := some "created", source := none,
        base_intent := some "buy boots", mechanism := none,
        ai_assistant := none, ai_session_id := none, expires_at := none,
        context := none, visibility := none, shared_with := none }
      { intent_id := some "int1", status := some "fulfilled", source := none,
        base_intent := none, mechanism := none, ai_assistant := none,
        ai_session_id := none, expires_at := none, context := none,
        visibility := none, shared_with := none }
      { intent_id := some "int1", status := none, source := none,
        base_intent := none, mechanism := none, ai_assistant := none,
        ai_session_id := none, expires_at := none, context := none,
        visibility := none, shared_with := none }
      (by decide) rfl rfl rfl rfl rfl rfl).1⟩

end SCP
